import Mathlib

/-!
Shallow embedding of `btr_snap/btrfs_snapshot_monitor.py` (class
`BTRFSSnapshotMonitor`) and proofs about its snapshot classification,
change detection and retention-cleanup logic.

Conventions of the embedding:
* Python `datetime` values are modelled by the `DateTime` structure
  (plain `Nat` fields); `strftime` formatting is modelled by `pad` and
  the `fmt*` functions (zero-padded decimal rendering).
* The snapshot store (the directory listing of `snapshot_dir`) is a
  `List String` of snapshot names; `get_existing_snapshots` groups it
  into an `Inventory` exactly as the Python dict comprehension does.
* Python string comparison (`list.sort`) is code-point lexicographic;
  it is modelled by `lexLe` on the character lists.  Sorting a list of
  strings is modelled by `List.insertionSort pyLe`, which produces the
  unique sorted permutation, hence agrees with Python `list.sort` on
  duplicate-free directory listings.
* Fallible collaborator calls are modelled by `Except`/`Option`
  arguments: `get_subvolume_hash` takes the outcome of the
  `btrfs subvolume show` call, `has_changes` takes the hash it observes,
  and `cleanup_old_snapshots_failing` takes an oracle saying which
  delete calls succeed (mirroring the per-deletion try/except).
-/

namespace BtrSnap

/-- Zero-padded decimal rendering, modelling `strftime` fields such as
`%Y` (width 4) and `%m` (width 2). -/
def pad (w : Nat) (n : Nat) : String :=
  String.mk (List.replicate (w - (toString n).length) '0') ++ toString n

/-- A wall-clock instant, modelling the fields of a Python `datetime`
that the monitor reads. -/
structure DateTime where
  year : Nat
  month : Nat
  day : Nat
  hour : Nat
  minute : Nat
  second : Nat
deriving DecidableEq, Repr

/-- `now.strftime('%Y')`. -/
def fmtYear (now : DateTime) : String := pad 4 now.year

/-- `now.strftime('%Y%m')`. -/
def fmtMonth (now : DateTime) : String := fmtYear now ++ pad 2 now.month

/-- `now.strftime('%Y%m%d')`. -/
def fmtDay (now : DateTime) : String := fmtMonth now ++ pad 2 now.day

/-- `now.strftime('%Y%m%d_%H')`. -/
def fmtHour (now : DateTime) : String := fmtDay now ++ "_" ++ pad 2 now.hour

/-- `now.strftime('%Y%m%d_%H%M%S')`, the timestamp used in snapshot names. -/
def fmtStamp (now : DateTime) : String :=
  fmtDay now ++ "_" ++ pad 2 now.hour ++ pad 2 now.minute ++ pad 2 now.second

/-- The snapshot inventory grouped by bucket, as returned by
`get_existing_snapshots` (the dict with the five fixed keys). -/
structure Inventory where
  MINUTE : List String
  HOUR : List String
  DAY : List String
  MONTH : List String
  YEAR : List String
deriving DecidableEq, Repr

/-- `self.snapshot_types`. -/
def snapshotTypes : List String := ["MINUTE", "HOUR", "DAY", "MONTH", "YEAR"]

/-- `get_snapshot_type`: the classification if/elif chain, verbatim from
the source (first matching rule wins, `MINUTE` is the default). -/
def get_snapshot_type (now : DateTime) (existing_snapshots : Inventory) : String :=
  let current_year := fmtYear now
  let current_month := fmtMonth now
  let current_day := fmtDay now
  let current_hour := fmtHour now
  if now.month == 1 && now.day == 1 && now.hour == 0 && now.minute == 0 then "YEAR"
  else if !(existing_snapshots.YEAR.any (fun snapshot => snapshot.take 4 == current_year)) then
    "YEAR"
  else if now.day == 1 && now.hour == 0 && now.minute == 0 then "MONTH"
  else if !(existing_snapshots.MONTH.any (fun snapshot => snapshot.take 6 == current_month)) then
    "MONTH"
  else if now.hour == 0 && now.minute == 0 then "DAY"
  else if !(existing_snapshots.DAY.any (fun snapshot => snapshot.take 8 == current_day)) then
    "DAY"
  else if now.minute == 0 then "HOUR"
  else if !(existing_snapshots.HOUR.any (fun snapshot => snapshot.take 11 == current_hour)) then
    "HOUR"
  else "MINUTE"

/-- Python `pat in s` substring test (the pattern occurs iff splitting on
it produces at least two pieces). -/
def strContains (s pat : String) : Bool := decide (2 ≤ (s.splitOn pat).length)

/-- `get_subvolume_hash`: the argument is the outcome of the
`btrfs subvolume show` collaborator call (`Except.error` when the command
raised).  The except-handler returns `none`; otherwise the first stdout
line containing `Generation:` is split on `:` and its second field,
stripped, is returned; if no line matches, `none` is returned. -/
def get_subvolume_hash (res : Except Unit String) : Option String :=
  match res with
  | Except.error _ => none
  | Except.ok stdout =>
    match (stdout.splitOn "\n").find? (fun line => strContains line "Generation:") with
    | some line =>
      match line.splitOn ":" with
      | _ :: generation :: _ => some generation.trim
      | _ => none
    | none => none

/-- The mutable state `has_changes` reads and writes: `self.test_mode`
and `self.last_snapshot_hash` (initialised to `None` in `__init__`). -/
structure ChangeState where
  test_mode : Bool
  last_snapshot_hash : Option String
deriving DecidableEq, Repr

/-- `has_changes`, as a state transformer: given the current state and
the hash observed for the source subvolume, returns the boolean result
and the updated state. -/
def has_changes (st : ChangeState) (current_hash : Option String) : Bool × ChangeState :=
  if st.test_mode then (true, st)
  else
    match st.last_snapshot_hash with
    | none => (false, { st with last_snapshot_hash := current_hash })
    | some h =>
      if current_hash ≠ some h then (true, { st with last_snapshot_hash := current_hash })
      else (false, st)

/-- Python `str.split(sep)` for a single-character separator, on the
character list (consecutive separators yield empty pieces, like Python). -/
def splitOnChar (c : Char) : List Char → List (List Char)
  | [] => [[]]
  | a :: rest =>
    match splitOnChar c rest with
    | [] => [[]]
    | g :: gs => if a = c then [] :: g :: gs else (a :: g) :: gs

/-- The grouping test of `get_existing_snapshots`: a name belongs to
bucket `t` iff it contains an underscore and its last
underscore-separated component is `t`, one of the five known buckets. -/
def bucketOf (name : String) : Option String :=
  if name.data.contains '_' then
    match (splitOnChar '_' name.data).getLast? with
    | some t => if String.mk t ∈ snapshotTypes then some (String.mk t) else none
    | none => none
  else none

/-- The member list of one bucket of the store listing (the list
`snapshots_by_type[t]` built by `get_existing_snapshots`, in listing
order). -/
def membersOf (store : List String) (t : String) : List String :=
  store.filter (fun name => decide (bucketOf name = some t))

/-- `get_existing_snapshots` applied to a directory listing. -/
def get_existing_snapshots (store : List String) : Inventory :=
  { MINUTE := membersOf store "MINUTE"
    HOUR := membersOf store "HOUR"
    DAY := membersOf store "DAY"
    MONTH := membersOf store "MONTH"
    YEAR := membersOf store "YEAR" }

/-- Code-point lexicographic order on character lists: the comparison
Python uses for `str` (and hence for `list.sort` on snapshot names). -/
def lexLe : List Char → List Char → Bool
  | [], _ => true
  | _ :: _, [] => false
  | a :: as, b :: bs => if a < b then true else if b < a then false else lexLe as bs

/-- Python string `<=` as a proposition on Lean strings. -/
def pyLe (a b : String) : Prop := lexLe a.data b.data = true

instance : DecidableRel pyLe := fun a b => instDecidableEqBool (lexLe a.data b.data) true

/-- `snapshots.sort()`: ascending sort in the Python string order. -/
def sortAsc (l : List String) : List String := List.insertionSort pyLe l

/-- `cleanup_old_snapshots`, modelled on the full store listing with all
delete calls succeeding.  Returns the ordered list of deleted names and
the store contents afterwards.  (The `1 ≤ cap` side condition of the
theorems below reflects that with `cap = 0` the Python loop would index
past the end of the list and raise.) -/
def cleanup_old_snapshots (store : List String) (snapshot_type : String) (cap : Nat) :
    List String × List String :=
  let snapshots := membersOf store snapshot_type
  if cap ≤ snapshots.length then
    let sorted := sortAsc snapshots
    let snapshots_to_remove := sorted.take (snapshots.length - cap + 1)
    (snapshots_to_remove, store.filter (fun name => decide (name ∉ snapshots_to_remove)))
  else ([], store)

/-- `cleanup_old_snapshots` with the per-deletion try/except made
explicit: `deleteOk` says which delete collaborator calls succeed.
Returns (attempted targets, successfully deleted, store afterwards):
every target is attempted in order; a failed one is only logged, its
name stays in the store, and the loop continues. -/
def cleanup_old_snapshots_failing (store : List String) (snapshot_type : String) (cap : Nat)
    (deleteOk : String → Bool) : List String × List String × List String :=
  let snapshots := membersOf store snapshot_type
  if cap ≤ snapshots.length then
    let sorted := sortAsc snapshots
    let targets := sorted.take (snapshots.length - cap + 1)
    let deleted := targets.filter deleteOk
    (targets, deleted, store.filter (fun name => decide (name ∉ deleted)))
  else ([], [], store)

/-- The configuration dict after `load_config`/`main` (the keys the
program ever writes; `dry_run` is set by the `--dry-run` flag). -/
structure Config where
  source_subvolume : String := "/btrfs/home"
  snapshot_dir : String := "/btrfs/snapshot"
  check_interval : Nat := 300
  max_snapshots_per_type : Nat := 30
  test_mode : Bool := false
  dry_run : Bool := false
deriving DecidableEq, Repr

/-- The fields `BTRFSSnapshotMonitor.__init__` copies out of the config
dict (note: there is no `dry_run` field — `__init__` never reads that
key, and no method ever consults it). -/
structure Monitor where
  source_subvolume : String
  snapshot_dir : String
  check_interval : Nat
  max_snapshots_per_type : Nat
  test_mode : Bool
deriving DecidableEq, Repr

/-- `BTRFSSnapshotMonitor.__init__` restricted to the copied fields. -/
def initMonitor (config : Config) : Monitor :=
  { source_subvolume := config.source_subvolume
    snapshot_dir := config.snapshot_dir
    check_interval := config.check_interval
    max_snapshots_per_type := config.max_snapshots_per_type
    test_mode := config.test_mode }

/-- The calls the monitor issues to external collaborators. -/
inductive ExtCall where
  | btrfsCreate (src dst : String)
  | btrfsDelete (path : String)
  | mkdirTest (path : String)
  | rmdirTest (path : String)
deriving DecidableEq, Repr

/-- The external calls issued by `create_snapshot` for a given snapshot
name: a test-mode directory creation, or the real
`btrfs subvolume snapshot -r` command. -/
def create_snapshot_calls (m : Monitor) (snapshot_name : String) : List ExtCall :=
  let snapshot_path := m.snapshot_dir ++ "/" ++ snapshot_name
  if m.test_mode then [ExtCall.mkdirTest snapshot_path]
  else [ExtCall.btrfsCreate m.source_subvolume snapshot_path]

/-- The external calls issued by the deletion loop of
`cleanup_old_snapshots` for a list of eviction targets. -/
def cleanup_delete_calls (m : Monitor) (targets : List String) : List ExtCall :=
  targets.map (fun snapshot_name =>
    let snapshot_path := m.snapshot_dir ++ "/" ++ snapshot_name
    if m.test_mode then ExtCall.rmdirTest snapshot_path
    else ExtCall.btrfsDelete snapshot_path)

/-! Concrete fixtures used in counterexamples and witnesses. -/

/-- A store listing with three MINUTE snapshots and one HOUR snapshot. -/
def exStore : List String := ["c_MINUTE", "a_MINUTE", "b_MINUTE", "d_HOUR"]

/-- A delete oracle under which the delete of `b_MINUTE` fails and every
other delete succeeds. -/
def exOk : String → Bool := fun name => !(name == "b_MINUTE")

/-- The instant of Scenario C: 2024-03-15 10:00:00. -/
def c3now : DateTime := ⟨2024, 3, 15, 10, 0, 0⟩

/-- The inventory of Scenario C as the claim lists it: one YEAR entry
matching 2024, one MONTH entry matching 202403, and nothing else. -/
def c3inv : Inventory :=
  { MINUTE := [], HOUR := [], DAY := []
    MONTH := ["20240301_000000_MONTH"], YEAR := ["20240601_000000_YEAR"] }

/-- The Scenario C inventory extended with a DAY entry for 2024-03-15. -/
def c3invDay : Inventory :=
  { MINUTE := [], HOUR := [], DAY := ["20240315_000000_DAY"]
    MONTH := ["20240301_000000_MONTH"], YEAR := ["20240601_000000_YEAR"] }

/-- The config produced by `main` for `--dry-run` without `--test`:
defaults plus `dry_run = True`. -/
def dry_run_config : Config := { dry_run := true, test_mode := false }

/-! Basic facts about the Python string order and about sorting. -/

theorem lexLe_cons (a b : Char) (as bs : List Char) :
    lexLe (a :: as) (b :: bs) =
      if a < b then true else if b < a then false else lexLe as bs := rfl

theorem lexLe_total : ∀ a b : List Char, lexLe a b = true ∨ lexLe b a = true
  | [], _ => Or.inl rfl
  | _ :: _, [] => Or.inr rfl
  | a :: as, b :: bs => by
    rw [lexLe_cons, lexLe_cons]
    rcases lt_trichotomy a b with hab | rfl | hab
    · exact Or.inl (by rw [if_pos hab])
    · simp only [if_neg (lt_irrefl a)]
      exact lexLe_total as bs
    · exact Or.inr (by rw [if_pos hab])

theorem lexLe_trans : ∀ a b c : List Char,
    lexLe a b = true → lexLe b c = true → lexLe a c = true
  | [], _, _, _, _ => rfl
  | _ :: _, [], _, h1, _ => by simp [lexLe] at h1
  | _ :: _, _ :: _, [], _, h2 => by simp [lexLe] at h2
  | a :: as, b :: bs, c :: cs, h1, h2 => by
    rw [lexLe_cons] at h1 h2 ⊢
    rcases lt_trichotomy a b with hab | rfl | hab
    · rcases lt_trichotomy b c with hbc | rfl | hbc
      · rw [if_pos (lt_trans hab hbc)]
      · rw [if_pos hab]
      · rw [if_neg (lt_asymm hbc), if_pos hbc] at h2
        simp at h2
    · rw [if_neg (lt_irrefl a), if_neg (lt_irrefl a)] at h1
      rcases lt_trichotomy a c with hac | rfl | hac
      · rw [if_pos hac]
      · rw [if_neg (lt_irrefl a), if_neg (lt_irrefl a)] at h2 ⊢
        exact lexLe_trans as bs cs h1 h2
      · rw [if_neg (lt_asymm hac), if_pos hac] at h2
        simp at h2
    · rw [if_neg (lt_asymm hab), if_pos hab] at h1
      simp at h1

instance : IsTotal String pyLe := ⟨fun a b => lexLe_total a.data b.data⟩

instance : IsTrans String pyLe := ⟨fun a b c => lexLe_trans a.data b.data c.data⟩

theorem sortAsc_perm (l : List String) : (sortAsc l).Perm l := List.perm_insertionSort pyLe l

theorem sortAsc_sorted (l : List String) : List.Sorted pyLe (sortAsc l) :=
  List.sorted_insertionSort pyLe l

theorem sortAsc_length (l : List String) : (sortAsc l).length = l.length :=
  (sortAsc_perm l).length_eq

/-- Grouping commutes with filtering the raw listing: the bucket members
of a filtered store are the filtered bucket members. -/
theorem membersOf_filter (p : String → Bool) (store : List String) (t : String) :
    membersOf (store.filter p) t = (membersOf store t).filter p := by
  unfold membersOf
  rw [List.filter_filter, List.filter_filter]
  exact List.filter_congr (fun a _ => Bool.and_comm _ _)

/-- Removing the first `k` entries of the sorted copy of a
duplicate-free list leaves `length - k` entries. -/
theorem filter_not_mem_take_length (l : List String) (k : Nat) (hnd : l.Nodup) :
    (l.filter (fun n => decide (n ∉ (sortAsc l).take k))).length = l.length - k := by
  have hperm :
      (l.filter (fun n => decide (n ∉ (sortAsc l).take k))).Perm
        ((sortAsc l).filter (fun n => decide (n ∉ (sortAsc l).take k))) :=
    List.Perm.filter _ (sortAsc_perm l).symm
  rw [hperm.length_eq]
  have hnds : (sortAsc l).Nodup := ((sortAsc_perm l).nodup_iff).mpr hnd
  have hsplit : (sortAsc l).take k ++ (sortAsc l).drop k = sortAsc l :=
    List.take_append_drop k (sortAsc l)
  have hdisj : ((sortAsc l).take k).Disjoint ((sortAsc l).drop k) := by
    have h := hnds
    rw [← hsplit] at h
    exact (List.nodup_append.mp h).2.2
  have h1 : ((sortAsc l).take k).filter (fun n => decide (n ∉ (sortAsc l).take k)) = [] :=
    List.filter_eq_nil_iff.mpr (fun a ha => by simp [ha])
  have h2 : ((sortAsc l).drop k).filter (fun n => decide (n ∉ (sortAsc l).take k)) =
      (sortAsc l).drop k :=
    List.filter_eq_self.mpr (fun a ha => by
      simp only [decide_eq_true_eq]
      exact fun hmem => hdisj hmem ha)
  have hfil : (sortAsc l).filter (fun n => decide (n ∉ (sortAsc l).take k)) =
      (sortAsc l).drop k := by
    conv_lhs =>
      arg 2
      rw [← hsplit]
    rw [List.filter_append, h1, h2, List.nil_append]
  rw [hfil, List.length_drop, sortAsc_length]

/-! Claims about the bucket classifier. -/

/-- C6: for every time `now` and every inventory whose YEAR bucket
contains no entry whose first 4 characters equal the formatted year of
`now`, `get_snapshot_type` returns `YEAR`, regardless of the other
fields of `now` and the other buckets of the inventory. -/
theorem classify_year_backfill (now : DateTime) (inv : Inventory)
    (h : ∀ s ∈ inv.YEAR, ¬ s.take 4 = fmtYear now) :
    get_snapshot_type now inv = "YEAR" := by
  have hany : inv.YEAR.any (fun snapshot => snapshot.take 4 == fmtYear now) = false := by
    rw [List.any_eq_false]
    intro x hx
    simpa using h x hx
  simp only [get_snapshot_type]
  by_cases hb : (now.month == 1 && now.day == 1 && now.hour == 0 && now.minute == 0) = true
  · rw [if_pos hb]
  · have hneg : (!(inv.YEAR.any (fun snapshot => snapshot.take 4 == fmtYear now))) = true := by
      rw [hany]
      rfl
    rw [if_neg hb, if_pos hneg]

theorem classify_year_backfill_witness :
    get_snapshot_type ⟨2024, 3, 15, 10, 23, 0⟩
      (Inventory.mk [] [] [] [] ["20230601_000000_YEAR"]) = "YEAR" :=
  classify_year_backfill ⟨2024, 3, 15, 10, 23, 0⟩
    (Inventory.mk [] [] [] [] ["20230601_000000_YEAR"]) (by decide)

/-- C9: for every `(now, inventory)` pair, `get_snapshot_type` returns
exactly one bucket, and that bucket is one of the five known buckets
(never anything coarser than YEAR or finer than MINUTE). -/
theorem classify_total (now : DateTime) (inv : Inventory) :
    ∃! b : String, b ∈ snapshotTypes ∧ get_snapshot_type now inv = b := by
  refine ⟨get_snapshot_type now inv, ⟨?_, rfl⟩, ?_⟩
  · simp only [get_snapshot_type]
    repeat' split
    all_goals decide
  · rintro b ⟨_, hb⟩
    exact hb.symm

/-- C10: the classification never reads the MINUTE bucket of the
inventory: two inventories agreeing on their YEAR, MONTH, DAY and HOUR
buckets classify identically for every time `now`. -/
theorem classify_ignores_minute_inventory (now : DateTime) (inv1 inv2 : Inventory)
    (hY : inv1.YEAR = inv2.YEAR) (hM : inv1.MONTH = inv2.MONTH)
    (hD : inv1.DAY = inv2.DAY) (hH : inv1.HOUR = inv2.HOUR) :
    get_snapshot_type now inv1 = get_snapshot_type now inv2 := by
  simp only [get_snapshot_type]
  rw [hY, hM, hD, hH]

theorem classify_ignores_minute_inventory_witness :
    get_snapshot_type ⟨2024, 3, 15, 10, 23, 0⟩
        (Inventory.mk ["20240315_102000_MINUTE"] [] [] [] ["20240601_000000_YEAR"]) =
      get_snapshot_type ⟨2024, 3, 15, 10, 23, 0⟩
        (Inventory.mk [] [] [] [] ["20240601_000000_YEAR"]) :=
  classify_ignores_minute_inventory ⟨2024, 3, 15, 10, 23, 0⟩
    (Inventory.mk ["20240315_102000_MINUTE"] [] [] [] ["20240601_000000_YEAR"])
    (Inventory.mk [] [] [] [] ["20240601_000000_YEAR"]) rfl rfl rfl rfl

/-! Claims about the change detector. -/

/-- C7: in non-test mode, when the stored last-seen hash is still `none`
(as `__init__` leaves it at process start), `has_changes` returns
`false` unconditionally and records the observed hash as the stored
last-seen hash. -/
theorem has_changes_cold_start (st : ChangeState) (current_hash : Option String)
    (ht : st.test_mode = false) (hl : st.last_snapshot_hash = none) :
    has_changes st current_hash = (false, { st with last_snapshot_hash := current_hash }) := by
  simp [has_changes, ht, hl]

theorem has_changes_cold_start_witness :
    has_changes ⟨false, none⟩ (some "42") = (false, ⟨false, some "42"⟩) :=
  has_changes_cold_start ⟨false, none⟩ (some "42") rfl rfl

/-- C2 counterexample: on the first call after process start, a failing
token query does not propagate; `get_subvolume_hash` swallows the
failure into `none` and `has_changes` reports `false`, i.e. exactly
"no change". -/
theorem has_changes_failure_cex :
    (has_changes ⟨false, none⟩ (get_subvolume_hash (Except.error ()))).1 = false := rfl

/-- C2 amended: when the token query fails, `get_subvolume_hash` returns
the `none` sentinel instead of propagating the failure, and
`has_changes` treats it like any token: it reports a change exactly when
a real token was stored earlier (since `none` differs from it), and in
all cases the stored hash becomes `none`. -/
theorem has_changes_failure_behavior (st : ChangeState) (e : Unit)
    (ht : st.test_mode = false) :
    ((has_changes st (get_subvolume_hash (Except.error e))).1 = true ↔
        st.last_snapshot_hash ≠ none) ∧
    (has_changes st (get_subvolume_hash (Except.error e))).2.last_snapshot_hash = none := by
  have hg : get_subvolume_hash (Except.error e) = none := rfl
  rw [hg]
  cases hl : st.last_snapshot_hash with
  | none => simp [has_changes, ht, hl]
  | some h => simp [has_changes, ht, hl]

theorem has_changes_failure_behavior_witness :
    (((has_changes ⟨false, some "12345"⟩ (get_subvolume_hash (Except.error ()))).1 = true ↔
        (some "12345" : Option String) ≠ none) ∧
      (has_changes ⟨false, some "12345"⟩
          (get_subvolume_hash (Except.error ()))).2.last_snapshot_hash = none) :=
  has_changes_failure_behavior ⟨false, some "12345"⟩ () rfl

/-! Claims about the retention enforcer. -/

/-- C1 counterexample: with three MINUTE snapshots and cap 2, the
pre-call member count (3) strictly exceeds the cap, but the post-call
member count is 1, not the cap: the `+ 1` in the excess computation
leaves `cap - 1` members, never `cap`. -/
theorem cleanup_retention_cap_cex :
    2 < (membersOf exStore "MINUTE").length ∧
    (membersOf (cleanup_old_snapshots exStore "MINUTE" 2).2 "MINUTE").length ≠ 2 := by
  constructor
  · decide
  · decide

/-- C1 amended: for every duplicate-free store, bucket and cap at least
1, after `cleanup_old_snapshots` the member count of the bucket is at
most the cap, and if the pre-call count strictly exceeded the cap the
post-call count is exactly `cap - 1` (the `+ 1` of the excess
computation reserves room for the snapshot just created). -/
theorem cleanup_retention_cap (store : List String) (snapshot_type : String) (cap : Nat)
    (hnd : store.Nodup) (hcap : 1 ≤ cap) :
    (membersOf (cleanup_old_snapshots store snapshot_type cap).2 snapshot_type).length ≤ cap ∧
    (cap < (membersOf store snapshot_type).length →
      (membersOf (cleanup_old_snapshots store snapshot_type cap).2 snapshot_type).length
        = cap - 1) := by
  by_cases h : cap ≤ (membersOf store snapshot_type).length
  · have hpost : (cleanup_old_snapshots store snapshot_type cap).2 =
        store.filter (fun name => decide (name ∉ (sortAsc (membersOf store snapshot_type)).take
          ((membersOf store snapshot_type).length - cap + 1))) := by
      simp only [cleanup_old_snapshots]
      rw [if_pos h]
    have hcount := filter_not_mem_take_length (membersOf store snapshot_type)
      ((membersOf store snapshot_type).length - cap + 1) (hnd.filter _)
    have hmem : (membersOf (cleanup_old_snapshots store snapshot_type cap).2
        snapshot_type).length = (membersOf store snapshot_type).length -
          ((membersOf store snapshot_type).length - cap + 1) := by
      rw [hpost, membersOf_filter, hcount]
    constructor
    · rw [hmem]; omega
    · intro _; rw [hmem]; omega
  · have hpost : (cleanup_old_snapshots store snapshot_type cap).2 = store := by
      simp only [cleanup_old_snapshots]
      rw [if_neg h]
    rw [hpost]
    constructor
    · omega
    · omega

theorem cleanup_retention_cap_witness :
    (membersOf (cleanup_old_snapshots exStore "MINUTE" 2).2 "MINUTE").length ≤ 2 ∧
    (2 < (membersOf exStore "MINUTE").length →
      (membersOf (cleanup_old_snapshots exStore "MINUTE" 2).2 "MINUTE").length = 2 - 1) :=
  cleanup_retention_cap exStore "MINUTE" 2 (by decide) (by decide)

/-- C5: for every duplicate-free store, bucket and cap at least 1 with
bucket member count at least the cap, `cleanup_old_snapshots` deletes
exactly `count - cap + 1` snapshots, listed in ascending (oldest-first)
Python string order; every deleted name is a member of the bucket,
every deleted name is at most every surviving member (the deleted ones
are the lexicographically smallest), exactly the deleted names are
removed from the store, and every snapshot of a different bucket
survives. -/
theorem cleanup_eviction_selection (store : List String) (snapshot_type : String) (cap : Nat)
    (hcap : 1 ≤ cap)
    (hlen : cap ≤ (membersOf store snapshot_type).length) :
    (cleanup_old_snapshots store snapshot_type cap).1.length
        = (membersOf store snapshot_type).length - cap + 1 ∧
    List.Sorted pyLe (cleanup_old_snapshots store snapshot_type cap).1 ∧
    (∀ d ∈ (cleanup_old_snapshots store snapshot_type cap).1,
        d ∈ membersOf store snapshot_type) ∧
    (∀ d ∈ (cleanup_old_snapshots store snapshot_type cap).1,
      ∀ s ∈ membersOf store snapshot_type,
        s ∉ (cleanup_old_snapshots store snapshot_type cap).1 → pyLe d s) ∧
    (∀ n ∈ store, (n ∈ (cleanup_old_snapshots store snapshot_type cap).2 ↔
        n ∉ (cleanup_old_snapshots store snapshot_type cap).1)) ∧
    (∀ n ∈ store, bucketOf n ≠ some snapshot_type →
        n ∈ (cleanup_old_snapshots store snapshot_type cap).2) := by
  have hfst : (cleanup_old_snapshots store snapshot_type cap).1 =
      (sortAsc (membersOf store snapshot_type)).take
        ((membersOf store snapshot_type).length - cap + 1) := by
    simp only [cleanup_old_snapshots]
    rw [if_pos hlen]
  have hsnd : (cleanup_old_snapshots store snapshot_type cap).2 =
      store.filter (fun name => decide (name ∉ (sortAsc (membersOf store snapshot_type)).take
        ((membersOf store snapshot_type).length - cap + 1))) := by
    simp only [cleanup_old_snapshots]
    rw [if_pos hlen]
  have hsplit := List.take_append_drop ((membersOf store snapshot_type).length - cap + 1)
    (sortAsc (membersOf store snapshot_type))
  have hpair : List.Pairwise pyLe
      ((sortAsc (membersOf store snapshot_type)).take
          ((membersOf store snapshot_type).length - cap + 1) ++
        (sortAsc (membersOf store snapshot_type)).drop
          ((membersOf store snapshot_type).length - cap + 1)) := by
    rw [hsplit]
    exact sortAsc_sorted (membersOf store snapshot_type)
  obtain ⟨-, -, hcross⟩ := List.pairwise_append.mp hpair
  have hiff : ∀ n ∈ store, (n ∈ (cleanup_old_snapshots store snapshot_type cap).2 ↔
      n ∉ (cleanup_old_snapshots store snapshot_type cap).1) := by
    intro n hn
    rw [hfst, hsnd, List.mem_filter]
    simp [hn]
  refine ⟨?_, ?_, ?_, ?_, hiff, ?_⟩
  · rw [hfst, List.length_take, sortAsc_length]
    exact Nat.min_eq_left (by omega)
  · rw [hfst]
    exact List.Pairwise.sublist (List.take_sublist _ _)
      (sortAsc_sorted (membersOf store snapshot_type))
  · intro d hd
    rw [hfst] at hd
    exact (sortAsc_perm (membersOf store snapshot_type)).subset (List.take_subset _ _ hd)
  · intro d hd s hs hsnot
    rw [hfst] at hd hsnot
    have hsmem : s ∈ sortAsc (membersOf store snapshot_type) :=
      (sortAsc_perm (membersOf store snapshot_type)).symm.subset hs
    rw [← hsplit] at hsmem
    rcases List.mem_append.mp hsmem with hin | hin
    · exact absurd hin hsnot
    · exact hcross d hd s hin
  · intro n hn hb
    refine (hiff n hn).mpr ?_
    intro hdel
    rw [hfst] at hdel
    have : n ∈ membersOf store snapshot_type :=
      (sortAsc_perm (membersOf store snapshot_type)).subset (List.take_subset _ _ hdel)
    have := List.of_mem_filter this
    simp only [decide_eq_true_eq] at this
    exact hb this

theorem cleanup_eviction_selection_witness :
    (cleanup_old_snapshots exStore "MINUTE" 2).1.length
        = (membersOf exStore "MINUTE").length - 2 + 1 ∧
    List.Sorted pyLe (cleanup_old_snapshots exStore "MINUTE" 2).1 ∧
    (∀ d ∈ (cleanup_old_snapshots exStore "MINUTE" 2).1, d ∈ membersOf exStore "MINUTE") ∧
    (∀ d ∈ (cleanup_old_snapshots exStore "MINUTE" 2).1,
      ∀ s ∈ membersOf exStore "MINUTE",
        s ∉ (cleanup_old_snapshots exStore "MINUTE" 2).1 → pyLe d s) ∧
    (∀ n ∈ exStore, (n ∈ (cleanup_old_snapshots exStore "MINUTE" 2).2 ↔
        n ∉ (cleanup_old_snapshots exStore "MINUTE" 2).1)) ∧
    (∀ n ∈ exStore, bucketOf n ≠ some "MINUTE" →
        n ∈ (cleanup_old_snapshots exStore "MINUTE" 2).2) :=
  cleanup_eviction_selection exStore "MINUTE" 2 (by decide) (by decide)

/-- C8: deletion is best-effort per target: the list of attempted
targets does not depend on which delete calls fail (no failure aborts
the batch), the successfully deleted names are exactly the attempted
ones whose delete succeeded, and every attempted target whose delete
succeeded is gone from the store even when other targets in the same
batch failed. -/
theorem cleanup_best_effort (store : List String) (snapshot_type : String) (cap : Nat)
    (deleteOk : String → Bool) :
    (cleanup_old_snapshots_failing store snapshot_type cap deleteOk).1 =
      (cleanup_old_snapshots_failing store snapshot_type cap (fun _ => true)).1 ∧
    (cleanup_old_snapshots_failing store snapshot_type cap deleteOk).2.1 =
      ((cleanup_old_snapshots_failing store snapshot_type cap deleteOk).1).filter deleteOk ∧
    (∀ n ∈ (cleanup_old_snapshots_failing store snapshot_type cap deleteOk).1,
      deleteOk n = true →
        n ∉ (cleanup_old_snapshots_failing store snapshot_type cap deleteOk).2.2) := by
  by_cases h : cap ≤ (membersOf store snapshot_type).length
  · simp only [cleanup_old_snapshots_failing]
    rw [if_pos h, if_pos h]
    refine ⟨rfl, rfl, ?_⟩
    intro n hn hok hmem
    have hp := List.of_mem_filter hmem
    simp only [decide_eq_true_eq] at hp
    exact hp (List.mem_filter.mpr ⟨hn, hok⟩)
  · simp only [cleanup_old_snapshots_failing]
    rw [if_neg h, if_neg h]
    exact ⟨rfl, rfl, by intro n hn; cases hn⟩

theorem cleanup_best_effort_witness :
    "a_MINUTE" ∈ (cleanup_old_snapshots_failing exStore "MINUTE" 1 exOk).1 ∧
    "b_MINUTE" ∈ (cleanup_old_snapshots_failing exStore "MINUTE" 1 exOk).1 ∧
    "c_MINUTE" ∈ (cleanup_old_snapshots_failing exStore "MINUTE" 1 exOk).1 ∧
    "a_MINUTE" ∉ (cleanup_old_snapshots_failing exStore "MINUTE" 1 exOk).2.2 ∧
    "c_MINUTE" ∉ (cleanup_old_snapshots_failing exStore "MINUTE" 1 exOk).2.2 :=
  ⟨by decide, by decide, by decide,
    (cleanup_best_effort exStore "MINUTE" 1 exOk).2.2 "a_MINUTE" (by decide) (by decide),
    (cleanup_best_effort exStore "MINUTE" 1 exOk).2.2 "c_MINUTE" (by decide) (by decide)⟩

/-! Scenario C of the spec (claim C3). -/

/-- C3 counterexample: with the inventory the claim lists (a YEAR entry
matching 2024, a MONTH entry matching 202403, nothing else) and
`now = 2024-03-15 10:00:00`, no HOUR entry matching `20240315_10`
exists, yet `get_snapshot_type` returns `DAY`, not the `HOUR` the claim
predicts: the DAY backfill rule fires before any HOUR rule is reached. -/
theorem classify_hour_scenario_cex :
    (∀ s ∈ c3inv.HOUR, ¬ s.take 11 = "20240315_10") ∧
    get_snapshot_type c3now c3inv = "DAY" ∧ ("DAY" : String) ≠ "HOUR" := by
  refine ⟨?_, ?_, ?_⟩
  · decide
  · decide
  · decide

/-- C3 amended: for `now = 2024-03-15 10:00:00` and any inventory with a
YEAR entry matching 2024 and a MONTH entry matching 202403,
`get_snapshot_type` returns `DAY` when no DAY entry matching 20240315
exists, and otherwise returns `HOUR` unconditionally — the minute=0
boundary rule fires regardless of the HOUR bucket, so `MINUTE` is never
returned in this scenario. -/
theorem classify_hour_scenario (inv : Inventory)
    (hY : ∃ s ∈ inv.YEAR, s.take 4 = "2024")
    (hM : ∃ s ∈ inv.MONTH, s.take 6 = "202403") :
    get_snapshot_type ⟨2024, 3, 15, 10, 0, 0⟩ inv =
      (if inv.DAY.any (fun snapshot => snapshot.take 8 == "20240315") then "HOUR"
       else "DAY") := by
  obtain ⟨sy, hsy, hy4⟩ := hY
  obtain ⟨sm, hsm, hm6⟩ := hM
  have hanyY : inv.YEAR.any
      (fun snapshot => snapshot.take 4 == fmtYear ⟨2024, 3, 15, 10, 0, 0⟩) = true :=
    List.any_eq_true.mpr ⟨sy, hsy, by
      rw [show fmtYear ⟨2024, 3, 15, 10, 0, 0⟩ = "2024" from rfl]
      exact beq_iff_eq.mpr hy4⟩
  have hanyM : inv.MONTH.any
      (fun snapshot => snapshot.take 6 == fmtMonth ⟨2024, 3, 15, 10, 0, 0⟩) = true :=
    List.any_eq_true.mpr ⟨sm, hsm, by
      rw [show fmtMonth ⟨2024, 3, 15, 10, 0, 0⟩ = "202403" from rfl]
      exact beq_iff_eq.mpr hm6⟩
  simp only [get_snapshot_type]
  simp only [show fmtDay ⟨2024, 3, 15, 10, 0, 0⟩ = "20240315" from rfl]
  by_cases hD : inv.DAY.any (fun snapshot => snapshot.take 8 == "20240315") = true
  · simp [hanyY, hanyM, hD]
  · simp [hanyY, hanyM, hD]

theorem classify_hour_scenario_witness :
    get_snapshot_type ⟨2024, 3, 15, 10, 0, 0⟩ c3invDay =
      (if c3invDay.DAY.any (fun snapshot => snapshot.take 8 == "20240315") then "HOUR"
       else "DAY") :=
  classify_hour_scenario c3invDay ⟨"20240601_000000_YEAR", by decide, by decide⟩
    ⟨"20240301_000000_MONTH", by decide, by decide⟩

/-! Claim C4: the dry-run mode. -/

/-- C4: the `--dry-run` flag is recorded in the config but never
consulted: `__init__` does not copy it into the monitor, and with the
dry-run config (non-test mode) `create_snapshot` still issues the real
`btrfs subvolume snapshot` call and the cleanup loop still issues the
real `btrfs subvolume delete` call, contradicting the documented
suppression of create/delete calls. -/
theorem dry_run_calls_still_issued :
    dry_run_config.dry_run = true ∧
    create_snapshot_calls (initMonitor dry_run_config) "20240315_102300_MINUTE" =
      [ExtCall.btrfsCreate "/btrfs/home" "/btrfs/snapshot/20240315_102300_MINUTE"] ∧
    cleanup_delete_calls (initMonitor dry_run_config) ["20230101_000000_MINUTE"] =
      [ExtCall.btrfsDelete "/btrfs/snapshot/20230101_000000_MINUTE"] :=
  ⟨rfl, rfl, rfl⟩

end BtrSnap
